import Mathlib

/-
Verification of `spotdl/console/pconsole.py`.

Python strings are embedded as `List Char`. Python's `str.split('/')`,
`'/'.join`, `str.replace(' ', '-')`, `str.strip()`, `str.lower()` and the
substring test `pat in s` are embedded by the executable functions below,
restricted to the ASCII inputs that occur in this program.
-/

/-- Python `'/'.join parts` restricted to the separator being a single
character; `joinWith sep [] = []`, `joinWith sep [p] = p`. -/
def joinWith (sep : List Char) : List (List Char) → List Char
  | [] => []
  | [p] => p
  | p :: q :: ps => p ++ sep ++ joinWith sep (q :: ps)

/-- Python `filename.split('/')`: splitting on a single character, one part
per separator occurrence plus one; `splitOnSlash [] = [[]]`. -/
def splitOnSlash : List Char → List (List Char)
  | [] => [[]]
  | c :: cs =>
    if c = '/' then [] :: splitOnSlash cs
    else
      match splitOnSlash cs with
      | [] => [[c]]
      | p :: ps => (c :: p) :: ps

/-- Python `'/'.join(parts)`. -/
def joinSlash (parts : List (List Char)) : List Char :=
  joinWith (['/']) parts

/-- Python `part.replace(' ', '-')`: every space character becomes a hyphen. -/
def replaceSpaces (part : List Char) : List Char :=
  part.map (fun c => if c = ' ' then '-' else c)

/-- Python `parts[-1] = f(parts[-1])`: rewrite the last element of a list.
`splitOnSlash` never returns `[]`, so the `[]` case is unreachable in use. -/
def setLast (f : List Char → List Char) : List (List Char) → List (List Char)
  | [] => []
  | [p] => [f p]
  | p :: q :: ps => p :: setLast f (q :: ps)

/-- The local function `space_replacer` of `pconsole`: empty input is returned
unchanged; otherwise the path is split on `/`, spaces in the last part are
replaced by hyphens, and the parts are rejoined. -/
def space_replacer (filename : List Char) : List Char :=
  if filename = [] then filename
  else joinSlash (setLast replaceSpaces (splitOnSlash filename))

theorem splitOnSlash_ne_nil (l : List Char) : splitOnSlash l ≠ [] := by
  cases l with
  | nil => simp [splitOnSlash]
  | cons c cs =>
    simp only [splitOnSlash]
    split
    · simp
    · split <;> simp

theorem setLast_ne_nil (f : List Char → List Char) (parts : List (List Char))
    (h : parts ≠ []) : setLast f parts ≠ [] := by
  cases parts with
  | nil => exact absurd rfl h
  | cons p ps => cases ps <;> simp [setLast]

/-- Every part produced by `splitOnSlash` is free of the separator. -/
theorem splitOnSlash_no_slash (l : List Char) :
    ∀ p ∈ splitOnSlash l, '/' ∉ p := by
  induction l with
  | nil => intro p hp; simp [splitOnSlash] at hp; simp [hp]
  | cons c cs ih =>
    intro p hp
    simp only [splitOnSlash] at hp
    by_cases hc : c = '/'
    · rw [if_pos hc] at hp
      rcases List.mem_cons.mp hp with hp | hp
      · simp [hp]
      · exact ih p hp
    · rw [if_neg hc] at hp
      rcases hsplit : splitOnSlash cs with _ | ⟨q, qs⟩
      · exact absurd hsplit (splitOnSlash_ne_nil cs)
      · rw [hsplit] at hp
        rcases List.mem_cons.mp hp with hp | hp
        · subst hp
          intro hmem
          rcases List.mem_cons.mp hmem with h1 | h1
          · exact hc h1.symm
          · exact ih q (by rw [hsplit]; exact List.mem_cons_self q qs) h1
        · exact ih p (by rw [hsplit]; exact List.mem_cons_of_mem q hp)

/-- Rejoining the parts of a split recovers the original string. -/
theorem joinSlash_splitOnSlash (l : List Char) :
    joinSlash (splitOnSlash l) = l := by
  induction l with
  | nil => simp [splitOnSlash, joinSlash, joinWith]
  | cons c cs ih =>
    simp only [splitOnSlash]
    by_cases hc : c = '/'
    · rw [if_pos hc]
      subst hc
      rcases hsplit : splitOnSlash cs with _ | ⟨q, qs⟩
      · exact absurd hsplit (splitOnSlash_ne_nil cs)
      · rw [hsplit] at ih
        simp only [joinSlash, joinWith]
        simpa [joinSlash] using ih
    · rw [if_neg hc]
      rcases hsplit : splitOnSlash cs with _ | ⟨q, qs⟩
      · exact absurd hsplit (splitOnSlash_ne_nil cs)
      · rw [hsplit] at ih
        cases qs with
        | nil => simpa [joinSlash, joinWith] using ih
        | cons r rs => simpa [joinSlash, joinWith] using ih

/-- Splitting a string of the form `p ++ '/' :: r` with `p` slash-free peels
off `p` as the first part. -/
theorem splitOnSlash_append_slash (p r : List Char) (hp : '/' ∉ p) :
    splitOnSlash (p ++ '/' :: r) = p :: splitOnSlash r := by
  induction p with
  | nil => simp [splitOnSlash]
  | cons c cs ih =>
    have hc : c ≠ '/' := fun h => hp (by simp [h])
    have hcs : '/' ∉ cs := fun h => hp (List.mem_cons_of_mem c h)
    simp only [List.cons_append, splitOnSlash, if_neg hc, List.append_eq]
    rw [ih hcs]

/-- Splitting a slash-free string yields a single part. -/
theorem splitOnSlash_of_no_slash (p : List Char) (hp : '/' ∉ p) :
    splitOnSlash p = [p] := by
  induction p with
  | nil => simp [splitOnSlash]
  | cons c cs ih =>
    have hc : c ≠ '/' := fun h => hp (by simp [h])
    have hcs : '/' ∉ cs := fun h => hp (List.mem_cons_of_mem c h)
    simp only [splitOnSlash, if_neg hc, ih hcs]

/-- Splitting after a join recovers the parts, provided the parts are
nonempty as a list and slash-free. -/
theorem splitOnSlash_joinSlash (parts : List (List Char)) (hne : parts ≠ [])
    (hns : ∀ p ∈ parts, '/' ∉ p) :
    splitOnSlash (joinSlash parts) = parts := by
  induction parts with
  | nil => exact absurd rfl hne
  | cons p ps ih =>
    cases ps with
    | nil =>
      simp only [joinSlash, joinWith]
      exact splitOnSlash_of_no_slash p (hns p (List.mem_cons_self p []))
    | cons q qs =>
      have hp : '/' ∉ p := hns p (List.mem_cons_self p (q :: qs))
      have hrest : ∀ x ∈ q :: qs, '/' ∉ x := fun x hx =>
        hns x (List.mem_cons_of_mem p hx)
      have hjoin : joinSlash (p :: q :: qs) = p ++ '/' :: joinSlash (q :: qs) := by
        simp [joinSlash, joinWith]
      rw [hjoin, splitOnSlash_append_slash p _ hp, ih (by simp) hrest]

theorem replaceSpaces_no_slash (p : List Char) (hp : '/' ∉ p) :
    '/' ∉ replaceSpaces p := by
  intro hmem
  simp only [replaceSpaces, List.mem_map] at hmem
  rcases hmem with ⟨c, hc, hce⟩
  by_cases hsp : c = ' '
  · rw [hsp] at hce; simp at hce
  · rw [if_neg hsp] at hce
    exact hp (hce ▸ hc)

theorem setLast_no_slash (parts : List (List Char))
    (hns : ∀ p ∈ parts, '/' ∉ p) :
    ∀ p ∈ setLast replaceSpaces parts, '/' ∉ p := by
  induction parts with
  | nil => intro p hp; simp [setLast] at hp
  | cons x xs ih =>
    intro p hp
    cases xs with
    | nil =>
      simp only [setLast, List.mem_singleton] at hp
      subst hp
      exact replaceSpaces_no_slash x (hns x (List.mem_cons_self x []))
    | cons y ys =>
      simp only [setLast, List.mem_cons] at hp
      rcases hp with hp | hp
      · subst hp; exact hns p (List.mem_cons_self p (y :: ys))
      · exact ih (fun q hq => hns q (List.mem_cons_of_mem x hq)) p hp

/-- The split of `space_replacer p` is the split of `p` with the last part
rewritten: the core correctness fact behind the space replacer. -/
theorem splitOnSlash_space_replacer (p : List Char) (hp : p ≠ []) :
    splitOnSlash (space_replacer p) = setLast replaceSpaces (splitOnSlash p) := by
  simp only [space_replacer, if_neg hp]
  exact splitOnSlash_joinSlash _
    (setLast_ne_nil _ _ (splitOnSlash_ne_nil p))
    (setLast_no_slash _ (splitOnSlash_no_slash p))

/-- Python whitespace characters stripped by `str.strip()` (ASCII range). -/
def isPySpace (c : Char) : Bool :=
  c = ' ' || c = '\t' || c = '\n' || c = '\r' || c = '\x0b' || c = '\x0c'

/-- Python `s.strip()`: drop leading and trailing whitespace. -/
def pyStrip (s : List Char) : List Char :=
  ((s.dropWhile (fun c => isPySpace c)).reverse.dropWhile
    (fun c => isPySpace c)).reverse

/-- Python `s.lower()` on the ASCII inputs that occur here. -/
def pyLower (s : List Char) : List Char :=
  s.map Char.toLower

/-- Whether `s` begins with `pat`. -/
def listStartsWith : List Char → List Char → Bool
  | [], _ => true
  | _ :: _, [] => false
  | p :: ps, c :: cs => p = c && listStartsWith ps cs

/-- Python substring test `pat in s`. -/
def containsSub (pat : List Char) : List Char → Bool
  | [] => listStartsWith pat []
  | c :: cs => listStartsWith pat (c :: cs) || containsSub pat cs

/-- `downloader.settings`: the mutable mapping borrowed for the session.
Keys read via `settings.get(k, default)` in the source are `Option`-valued
(`none` models an absent key); keys read via `settings[k]` are plain fields
(the source presupposes their presence). `space_replacer` holds the function
value stored under that key, `none` when the key is absent. -/
structure Settings where
  structured : Option Bool
  replace_spaces : Option Bool
  output : List Char
  ytm_data : Bool
  playlist_numbering : Bool
  ignore_albums : List (List Char)
  album_type : List Char
  playlist_retain_track_cover : Bool
  format : Option (List Char)
  space_replacer : Option (List Char → List Char)

/-- The downloader collaborator: its settings mapping and its
`download_song_to_file` attribute, which `pconsole` temporarily replaces.
`Song` is the external song-record type and `R` the result type of a
single-song download. -/
structure Downloader (Song R : Type) where
  settings : Settings
  download_song_to_file : Song → List Char → R

/-- Observable events of one session: printed lines, prompts, log lines, and
the two collaborator invocations with their arguments. -/
inductive TraceEv (Song : Type) where
  | prompt
  | printOut (line : List Char)
  | logInfo (msg : List Char)
  | logError (msg : List Char)
  | resolveCall (urls : List (List Char)) (ytm : Bool) (numbering : Bool)
      (ignore : List (List Char)) (atype : List Char) (cover : Bool)
  | batchCall (songs : List Song)
  deriving DecidableEq

/-- One read at the top of the loop: either `readline` yields a line, or a
`KeyboardInterrupt` arrives during the read. A session's input is a finite
list of these; once it is exhausted, `readline` returns the empty string
forever (end-of-input). -/
inductive InputEvent where
  | line (s : List Char)
  | interrupt
  deriving DecidableEq

/-- How one processed line leaves the loop body: fall through to the next
iteration, `break`, or an uncaught collaborator exception. -/
inductive LoopCtrl (E : Type) where
  | cont
  | brk
  | err (e : E)
  deriving DecidableEq

/-- How the whole `while True` loop ends. `diverged` marks the end-of-input
situation: `readline` returns the empty string, the loop treats it as a
blank line and re-prompts forever, so control never leaves the loop. -/
inductive LoopOutcome (E : Type) where
  | exited
  | interrupted
  | raised (e : E)
  | diverged
  deriving DecidableEq

/-- The lines printed by `show_help`, in order. The folder-structure and
space-replacement lines show the local flags captured at session start; the
format line reads `settings.get('format', 'mp3')` at call time. -/
def helpLines {Song : Type} (structured rsp : Bool) (st : Settings) :
    List (TraceEv Song) :=
  [TraceEv.printOut (("\nAvailable commands:").data),
   TraceEv.printOut (("  help             Show this help message").data),
   TraceEv.printOut (("  exit, quit       Exit pconsole").data),
   TraceEv.printOut (("  <spotify-url>    Download from the given Spotify album URL").data),
   TraceEv.printOut (("\nCurrent settings:").data),
   TraceEv.printOut ((("  Output folder structure: ").data) ++
     (if structured then ("artist/album").data else ("default").data)),
   TraceEv.printOut ((("  Space replacement: ").data) ++
     (if rsp then ("hyphens").data else ("none").data)),
   TraceEv.printOut ((("  Output format: ").data) ++ st.format.getD (("mp3").data)),
   TraceEv.printOut (("\nUsage examples:").data),
   TraceEv.printOut (("  spotdl pconsole -s     # Use artist/album folder structure").data),
   TraceEv.printOut (("  spotdl pconsole -r     # Replace spaces with hyphens").data),
   TraceEv.printOut (("  spotdl pconsole -sr    # Use both options together").data)]

/-- The local `download_song_to_file_wrapper` closure: if the path is truthy
and the `space_replacer` key is present in the settings, rewrite the path
with the stored function, then delegate to the original entry point. The
closure reads the settings at call time; nothing mutates the settings
between installation and the end of the batch, so the captured `d` agrees
with the call-time state. -/
def download_song_to_file_wrapper {Song R : Type} (d : Downloader Song R)
    (song : Song) (file_path : List Char) : R :=
  let fp :=
    match d.settings.space_replacer with
    | some f => if file_path ≠ [] then f file_path else file_path
    | none => file_path
  d.download_song_to_file song fp

/-- `downloader.download_song_to_file = download_song_to_file_wrapper`:
the temporary method replacement before a batch. -/
def installWrapper {Song R : Type} (d : Downloader Song R) :
    Downloader Song R :=
  { d with download_song_to_file := download_song_to_file_wrapper d }

/-- The body of the `while` loop for one non-interrupt line `s`, after the
prompt. `structured` and `rsp` are the local flags captured at session
start; `resolve` embeds `get_simple_songs` and `batch` embeds
`download_multiple_songs` (which receives the current single-song entry
point). Returns the loop control, the downloader afterwards, and the trace
of the iteration. -/
def stepLine {Song E R : Type} (structured rsp : Bool)
    (resolve : List (List Char) → Bool → Bool → List (List Char) → List Char →
      Bool → Except E (List Song))
    (batch : (Song → List Char → R) → List Song → Except E Unit)
    (d : Downloader Song R) (s : List Char) :
    LoopCtrl E × Downloader Song R × List (TraceEv Song) :=
  let url := pyStrip s
  if url = [] then (LoopCtrl.cont, d, [])
  else
    let echoEv : TraceEv Song := TraceEv.printOut ((("Input: ").data) ++ url)
    if pyLower url = ("exit").data ∨ pyLower url = ("quit").data then
      (LoopCtrl.brk, d, [echoEv])
    else if pyLower url = ("help").data then
      (LoopCtrl.cont, d, echoEv :: helpLines structured rsp d.settings)
    else if containsSub (("album").data) url = true ∧
        containsSub (("open.spotify.com").data) url = true then
      let tr0 : List (TraceEv Song) :=
        [echoEv,
         TraceEv.logInfo ((("Processing album: ").data) ++ url),
         TraceEv.resolveCall [url] d.settings.ytm_data
           d.settings.playlist_numbering d.settings.ignore_albums
           d.settings.album_type d.settings.playlist_retain_track_cover]
      match resolve [url] d.settings.ytm_data d.settings.playlist_numbering
          d.settings.ignore_albums d.settings.album_type
          d.settings.playlist_retain_track_cover with
      | Except.error e => (LoopCtrl.err e, d, tr0)
      | Except.ok songs =>
        let dW := if rsp then installWrapper d else d
        match batch dW.download_song_to_file songs with
        | Except.error e => (LoopCtrl.err e, dW, tr0 ++ [TraceEv.batchCall songs])
        | Except.ok _ =>
          let dR := if rsp then
              { dW with download_song_to_file := d.download_song_to_file }
            else dW
          (LoopCtrl.cont, dR, tr0 ++ [TraceEv.batchCall songs])
    else
      (LoopCtrl.cont, d,
        [echoEv, TraceEv.logError (("Currently only supporting Spotify album links").data)])

/-- The `while True` loop. Each iteration prints the prompt and consumes one
input event; when the input list is exhausted, `readline` returns the empty
string forever, the `if not url: continue` branch repeats, and the loop
never exits: outcome `diverged`. -/
def sessionLoop {Song E R : Type} (structured rsp : Bool)
    (resolve : List (List Char) → Bool → Bool → List (List Char) → List Char →
      Bool → Except E (List Song))
    (batch : (Song → List Char → R) → List Song → Except E Unit) :
    List InputEvent → Downloader Song R →
    LoopOutcome E × Downloader Song R × List (TraceEv Song)
  | [], d => (LoopOutcome.diverged, d, [TraceEv.prompt])
  | InputEvent.interrupt :: _, d => (LoopOutcome.interrupted, d, [TraceEv.prompt])
  | InputEvent.line s :: rest, d =>
    match stepLine structured rsp resolve batch d s with
    | (LoopCtrl.cont, d1, tr) =>
      match sessionLoop structured rsp resolve batch rest d1 with
      | (o, d2, tr2) => (o, d2, TraceEv.prompt :: (tr ++ tr2))
    | (LoopCtrl.brk, d1, tr) => (LoopOutcome.exited, d1, TraceEv.prompt :: tr)
    | (LoopCtrl.err e, d1, tr) => (LoopOutcome.raised e, d1, TraceEv.prompt :: tr)

/-- The fixed output template installed when `structured` is set:
the source string is a three-level `artist`/`album`/`title` template,
written here with `\x7b` and `\x7d` for the literal braces. -/
def outputTemplate : List Char :=
  ("\x7bartist\x7d/\x7balbum\x7d/\x7btitle\x7d").data

/-- The two settings overrides applied before the loop: overwrite `output`
with the fixed template when `structured`, store the `space_replacer`
function under its key when `replace_spaces`. -/
def applyOverrides {Song R : Type} (d : Downloader Song R) :
    Downloader Song R :=
  let d1 := if d.settings.structured.getD false then
      { d with settings := { d.settings with output := outputTemplate } }
    else d
  if d.settings.replace_spaces.getD false then
    { d1 with settings := { d1.settings with space_replacer := some space_replacer } }
  else d1

/-- The `finally` block: restore `output` from the remembered original if it
had been overridden; delete the `space_replacer` key if space replacement
was on and the key is present. -/
def teardown {Song R : Type} (structured rsp : Bool)
    (original_output : List Char) (d : Downloader Song R) :
    Downloader Song R :=
  let d1 := if structured then
      { d with settings := { d.settings with output := original_output } }
    else d
  if rsp ∧ d1.settings.space_replacer.isSome = true then
    { d1 with settings := { d1.settings with space_replacer := none } }
  else d1

/-- The banner printed before the loop starts. -/
def bannerLines {Song : Type} (structured rsp : Bool) : List (TraceEv Song) :=
  [TraceEv.printOut (("Welcome to spotDL pconsole. Enter Spotify URLs to download (Ctrl+D to exit).").data),
   TraceEv.printOut (("Currently supporting album links only.").data),
   TraceEv.printOut (("Type \x27help\x27 to see available commands.").data)] ++
  (let opts :=
    (if structured then [("-s (artist/album structure)").data] else []) ++
    (if rsp then [("-r (replace spaces)").data] else [])
   if opts = [] then []
   else [TraceEv.printOut ((("Active options: ").data) ++ joinWith ((", ").data) opts)])

/-- The whole `pconsole` session: capture the flags and the original output
template, apply the overrides, print the banner, run the loop, and — when
the loop exits (the `try` block ends, normally or by exception) — print the
farewell on a caught interrupt and run the `finally` teardown. When the
loop diverges on end-of-input, the `finally` block is never reached. -/
def pconsole {Song E R : Type} (d : Downloader Song R)
    (resolve : List (List Char) → Bool → Bool → List (List Char) → List Char →
      Bool → Except E (List Song))
    (batch : (Song → List Char → R) → List Song → Except E Unit)
    (events : List InputEvent) :
    LoopOutcome E × Downloader Song R × List (TraceEv Song) :=
  let structured := d.settings.structured.getD false
  let rsp := d.settings.replace_spaces.getD false
  let original_output := d.settings.output
  let d2 := applyOverrides d
  let setupTr : List (TraceEv Song) :=
    (if structured then
       [TraceEv.logInfo (("Using artist/album folder structure for downloads").data)]
     else []) ++
    (if rsp then
       [TraceEv.logInfo (("Replacing spaces with hyphens in filenames").data)]
     else [])
  let pre := setupTr ++ bannerLines structured rsp
  match sessionLoop structured rsp resolve batch events d2 with
  | (LoopOutcome.diverged, d3, tr) => (LoopOutcome.diverged, d3, pre ++ tr)
  | (LoopOutcome.interrupted, d3, tr) =>
    (LoopOutcome.interrupted, teardown structured rsp original_output d3,
      pre ++ tr ++ [TraceEv.printOut (("\nExiting pconsole mode.").data)])
  | (o, d3, tr) => (o, teardown structured rsp original_output d3, pre ++ tr)

theorem setLast_cons_of_ne_nil (f : List Char → List Char) (p : List Char)
    (t : List (List Char)) (h : t ≠ []) :
    setLast f (p :: t) = p :: setLast f t := by
  cases t with
  | nil => exact absurd rfl h
  | cons q qs => rfl

theorem setLast_dropLast (f : List Char → List Char) :
    ∀ l : List (List Char), (setLast f l).dropLast = l.dropLast
  | [] => rfl
  | [p] => rfl
  | p :: q :: ps => by
    have ih := setLast_dropLast f (q :: ps)
    rw [setLast_cons_of_ne_nil f p (q :: ps) (by simp)]
    cases hq : setLast f (q :: ps) with
    | nil => exact absurd hq (setLast_ne_nil f (q :: ps) (by simp))
    | cons r rs =>
      rw [hq] at ih
      rw [List.dropLast_cons₂, ih, List.dropLast_cons₂]

theorem setLast_getLast? (f : List Char → List Char) :
    ∀ l : List (List Char), (setLast f l).getLast? = l.getLast?.map f
  | [] => rfl
  | [p] => by simp [setLast]
  | p :: q :: ps => by
    have ih := setLast_getLast? f (q :: ps)
    rw [setLast_cons_of_ne_nil f p (q :: ps) (by simp)]
    cases hq : setLast f (q :: ps) with
    | nil => exact absurd hq (setLast_ne_nil f (q :: ps) (by simp))
    | cons r rs =>
      rw [hq] at ih
      rw [List.getLast?_cons_cons, ih, List.getLast?_cons_cons]

theorem replaceSpaces_idem (x : List Char) :
    replaceSpaces (replaceSpaces x) = replaceSpaces x := by
  simp only [replaceSpaces, List.map_map]
  apply List.map_congr_left
  intro c _
  by_cases hc : c = ' ' <;> simp [hc, Function.comp]

theorem setLast_setLast :
    ∀ l : List (List Char),
      setLast replaceSpaces (setLast replaceSpaces l) = setLast replaceSpaces l
  | [] => rfl
  | [p] => by simp [setLast, replaceSpaces_idem]
  | p :: q :: ps => by
    rw [setLast_cons_of_ne_nil _ p (q :: ps) (by simp),
      setLast_cons_of_ne_nil _ p (setLast replaceSpaces (q :: ps))
        (setLast_ne_nil _ _ (by simp)),
      setLast_setLast (q :: ps)]

theorem joinSlash_singleton_nil : joinSlash [[]] = [] := rfl

theorem space_replacer_ne_nil (p : List Char) (hp : p ≠ []) :
    space_replacer p ≠ [] := by
  intro hnil
  have hsplit : splitOnSlash (space_replacer p) =
      setLast replaceSpaces (splitOnSlash p) :=
    splitOnSlash_space_replacer p hp
  rw [hnil] at hsplit
  have hsp : setLast replaceSpaces (splitOnSlash p) = [[]] := by
    rw [← hsplit]; rfl
  cases hx : splitOnSlash p with
  | nil => exact absurd hx (splitOnSlash_ne_nil p)
  | cons x xs =>
    cases xs with
    | nil =>
      rw [hx] at hsp
      simp only [setLast] at hsp
      have hxnil : x = [] := by
        have h1 : replaceSpaces x = [] := by
          simpa using hsp
        simpa [replaceSpaces] using h1
      have : p = [] := by
        have hj := joinSlash_splitOnSlash p
        rw [hx, hxnil] at hj
        rw [← hj]; rfl
      exact hp this
    | cons y ys =>
      rw [hx, setLast_cons_of_ne_nil _ x (y :: ys) (by simp)] at hsp
      injection hsp with hx1 hx2
      exact setLast_ne_nil _ (y :: ys) (by simp) hx2

/-- C3: for every non-empty path `p`, `space_replacer p` splits into the same
directory segments as `p` (all but the last part unchanged) and its final
`/`-separated segment is the final segment of `p` with spaces replaced by
hyphens. -/
theorem space_replacer_final_segment (p : List Char) (hp : p ≠ []) :
    (splitOnSlash (space_replacer p)).dropLast = (splitOnSlash p).dropLast ∧
    (splitOnSlash (space_replacer p)).getLast? =
      ((splitOnSlash p).getLast?).map replaceSpaces := by
  rw [splitOnSlash_space_replacer p hp]
  exact ⟨setLast_dropLast _ _, setLast_getLast? _ _⟩

theorem space_replacer_final_segment_witness :
    (("Artist Name/My Song.mp3").data ≠ ([] : List Char)) ∧
    ((splitOnSlash (space_replacer (("Artist Name/My Song.mp3").data))).dropLast =
        (splitOnSlash (("Artist Name/My Song.mp3").data)).dropLast ∧
      (splitOnSlash (space_replacer (("Artist Name/My Song.mp3").data))).getLast? =
        ((splitOnSlash (("Artist Name/My Song.mp3").data)).getLast?).map
          replaceSpaces) :=
  ⟨by decide, space_replacer_final_segment (("Artist Name/My Song.mp3").data)
    (by decide)⟩

/-- C10: the space replacer is idempotent: applying it twice equals applying
it once, for every string. -/
theorem space_replacer_idempotent (p : List Char) :
    space_replacer (space_replacer p) = space_replacer p := by
  by_cases hp : p = []
  · subst hp; rfl
  · have hne := space_replacer_ne_nil p hp
    have h1 : space_replacer (space_replacer p) =
        joinSlash (setLast replaceSpaces (splitOnSlash (space_replacer p))) := by
      rw [space_replacer, if_neg hne]
    rw [h1, splitOnSlash_space_replacer p hp, setLast_setLast,
      space_replacer, if_neg hp]

/-- A concrete settings mapping for witness instantiations. -/
def sampleSettings : Settings :=
  { structured := some false
    replace_spaces := some false
    output := ("out").data
    ytm_data := false
    playlist_numbering := false
    ignore_albums := []
    album_type := ("all").data
    playlist_retain_track_cover := false
    format := some (("mp3").data)
    space_replacer := none }

/-- A concrete downloader for witness instantiations. -/
def sampleDownloader : Downloader Nat Unit :=
  { settings := sampleSettings, download_song_to_file := fun _ _ => () }

/-- A concrete resolution collaborator for witness instantiations. -/
def sampleResolve : List (List Char) → Bool → Bool → List (List Char) →
    List Char → Bool → Except Unit (List Nat) :=
  fun _ _ _ _ _ _ => Except.ok [0]

/-- A concrete batch-download collaborator for witness instantiations. -/
def sampleBatch : (Nat → List Char → Unit) → List Nat → Except Unit Unit :=
  fun _ _ => Except.ok ()

/-- C8: a line that is empty after stripping leaves the loop body with no
echo and no state change, and the loop re-prompts and continues with the
very same downloader on the remaining input. -/
theorem blank_line_no_effect {Song E R : Type} (structured rsp : Bool)
    (resolve : List (List Char) → Bool → Bool → List (List Char) → List Char →
      Bool → Except E (List Song))
    (batch : (Song → List Char → R) → List Song → Except E Unit)
    (d : Downloader Song R) (s : List Char) (rest : List InputEvent)
    (h : pyStrip s = []) :
    stepLine structured rsp resolve batch d s =
      (LoopCtrl.cont, d, ([] : List (TraceEv Song))) ∧
    sessionLoop structured rsp resolve batch (InputEvent.line s :: rest) d =
      ((sessionLoop structured rsp resolve batch rest d).1,
       (sessionLoop structured rsp resolve batch rest d).2.1,
       TraceEv.prompt ::
         (sessionLoop structured rsp resolve batch rest d).2.2) := by
  have h1 : stepLine structured rsp resolve batch d s =
      (LoopCtrl.cont, d, ([] : List (TraceEv Song))) := by
    simp [stepLine, h]
  refine ⟨h1, ?_⟩
  rcases hr : sessionLoop structured rsp resolve batch rest d with ⟨o, d2, tr2⟩
  simp [sessionLoop, h1, hr]

theorem blank_line_no_effect_witness :
    pyStrip (("  ").data) = [] ∧
    (stepLine false false sampleResolve sampleBatch sampleDownloader
        (("  ").data) = (LoopCtrl.cont, sampleDownloader, []) ∧
     sessionLoop false false sampleResolve sampleBatch
        [InputEvent.line (("  ").data)] sampleDownloader =
       ((sessionLoop false false sampleResolve sampleBatch [] sampleDownloader).1,
        (sessionLoop false false sampleResolve sampleBatch [] sampleDownloader).2.1,
        TraceEv.prompt ::
          (sessionLoop false false sampleResolve sampleBatch []
            sampleDownloader).2.2)) :=
  ⟨by decide, blank_line_no_effect false false sampleResolve sampleBatch
    sampleDownloader (("  ").data) [] (by decide)⟩

/-- C9: a line whose lowercased stripped form is `help` prints the echo and
the fixed help block and continues the loop with the downloader unchanged;
the help block contains the line showing the current `format` settings value
verbatim. -/
theorem help_line_behavior {Song E R : Type} (structured rsp : Bool)
    (resolve : List (List Char) → Bool → Bool → List (List Char) → List Char →
      Bool → Except E (List Song))
    (batch : (Song → List Char → R) → List Song → Except E Unit)
    (d : Downloader Song R) (s : List Char)
    (h : pyLower (pyStrip s) = ("help").data) :
    stepLine structured rsp resolve batch d s =
      (LoopCtrl.cont, d,
        TraceEv.printOut ((("Input: ").data) ++ pyStrip s) ::
          helpLines structured rsp d.settings) ∧
    TraceEv.printOut ((("  Output format: ").data) ++
        d.settings.format.getD (("mp3").data)) ∈
      (helpLines structured rsp d.settings : List (TraceEv Song)) := by
  have hne : pyStrip s ≠ [] := by
    intro h0
    rw [h0] at h
    exact absurd h (by decide)
  constructor
  · simp only [stepLine]
    rw [if_neg hne, if_neg (by rw [h]; decide), if_pos h]
  · simp [helpLines]

theorem help_line_behavior_witness :
    pyLower (pyStrip (("HELP").data)) = ("help").data ∧
    (stepLine false false sampleResolve sampleBatch sampleDownloader
        (("HELP").data) =
      (LoopCtrl.cont, sampleDownloader,
        TraceEv.printOut ((("Input: ").data) ++ pyStrip (("HELP").data)) ::
          helpLines false false sampleDownloader.settings) ∧
     TraceEv.printOut ((("  Output format: ").data) ++
        sampleDownloader.settings.format.getD (("mp3").data)) ∈
      (helpLines false false sampleDownloader.settings : List (TraceEv Nat))) :=
  ⟨by decide, help_line_behavior false false sampleResolve sampleBatch
    sampleDownloader (("HELP").data) (by decide)⟩

/-- C5: for a stripped non-empty line that is none of `exit`, `quit`, `help`:
when it contains both `album` and `open.spotify.com` the download path is
taken (the resolution call appears in the iteration trace); otherwise the
iteration performs no resolution or batch call, logs the
albums-only error, leaves the downloader unchanged and continues the loop. -/
theorem url_line_classification {Song E R : Type} (structured rsp : Bool)
    (resolve : List (List Char) → Bool → Bool → List (List Char) → List Char →
      Bool → Except E (List Song))
    (batch : (Song → List Char → R) → List Song → Except E Unit)
    (d : Downloader Song R) (s : List Char)
    (h0 : pyStrip s ≠ [])
    (h1 : pyLower (pyStrip s) ≠ ("exit").data)
    (h2 : pyLower (pyStrip s) ≠ ("quit").data)
    (h3 : pyLower (pyStrip s) ≠ ("help").data) :
    ((containsSub (("album").data) (pyStrip s) = true ∧
      containsSub (("open.spotify.com").data) (pyStrip s) = true) →
      TraceEv.resolveCall [pyStrip s] d.settings.ytm_data
        d.settings.playlist_numbering d.settings.ignore_albums
        d.settings.album_type d.settings.playlist_retain_track_cover ∈
        (stepLine structured rsp resolve batch d s).2.2) ∧
    (¬(containsSub (("album").data) (pyStrip s) = true ∧
       containsSub (("open.spotify.com").data) (pyStrip s) = true) →
      stepLine structured rsp resolve batch d s =
        (LoopCtrl.cont, d,
          [TraceEv.printOut ((("Input: ").data) ++ pyStrip s),
           TraceEv.logError
             (("Currently only supporting Spotify album links").data)])) := by
  constructor
  · intro halb
    simp only [stepLine]
    rw [if_neg h0, if_neg (not_or.mpr ⟨h1, h2⟩), if_neg h3, if_pos halb]
    rcases hres : resolve [pyStrip s] d.settings.ytm_data
        d.settings.playlist_numbering d.settings.ignore_albums
        d.settings.album_type d.settings.playlist_retain_track_cover with e | songs
    · simp [hres]
    · rcases hb : batch (if rsp then installWrapper d else d).download_song_to_file
          songs with e | u <;> simp [hres, hb]
  · intro hnalb
    simp only [stepLine]
    rw [if_neg h0, if_neg (not_or.mpr ⟨h1, h2⟩), if_neg h3, if_neg hnalb]

theorem url_line_classification_witness :
    (pyStrip (("https://open.spotify.com/track/xyz").data) ≠ [] ∧
     pyLower (pyStrip (("https://open.spotify.com/track/xyz").data)) ≠
       ("exit").data ∧
     pyLower (pyStrip (("https://open.spotify.com/track/xyz").data)) ≠
       ("quit").data ∧
     pyLower (pyStrip (("https://open.spotify.com/track/xyz").data)) ≠
       ("help").data) ∧
    (((containsSub (("album").data)
          (pyStrip (("https://open.spotify.com/track/xyz").data)) = true ∧
       containsSub (("open.spotify.com").data)
          (pyStrip (("https://open.spotify.com/track/xyz").data)) = true) →
       TraceEv.resolveCall [pyStrip (("https://open.spotify.com/track/xyz").data)]
         sampleDownloader.settings.ytm_data
         sampleDownloader.settings.playlist_numbering
         sampleDownloader.settings.ignore_albums
         sampleDownloader.settings.album_type
         sampleDownloader.settings.playlist_retain_track_cover ∈
         (stepLine false false sampleResolve sampleBatch sampleDownloader
           (("https://open.spotify.com/track/xyz").data)).2.2) ∧
     (¬(containsSub (("album").data)
          (pyStrip (("https://open.spotify.com/track/xyz").data)) = true ∧
        containsSub (("open.spotify.com").data)
          (pyStrip (("https://open.spotify.com/track/xyz").data)) = true) →
       stepLine false false sampleResolve sampleBatch sampleDownloader
           (("https://open.spotify.com/track/xyz").data) =
         (LoopCtrl.cont, sampleDownloader,
           [TraceEv.printOut ((("Input: ").data) ++
              pyStrip (("https://open.spotify.com/track/xyz").data)),
            TraceEv.logError
              (("Currently only supporting Spotify album links").data)]))) :=
  ⟨⟨by decide, by decide, by decide, by decide⟩,
   url_line_classification false false sampleResolve sampleBatch
     sampleDownloader (("https://open.spotify.com/track/xyz").data)
     (by decide) (by decide) (by decide) (by decide)⟩

/-- C6: for an accepted album line, the iteration trace is exactly the echo,
the info log, the resolution call on the singleton URL list with the five
settings values, and — exactly when resolution succeeds — the batch call on
the resolved song sequence. -/
theorem album_line_resolution_batch {Song E R : Type} (structured rsp : Bool)
    (resolve : List (List Char) → Bool → Bool → List (List Char) → List Char →
      Bool → Except E (List Song))
    (batch : (Song → List Char → R) → List Song → Except E Unit)
    (d : Downloader Song R) (s : List Char)
    (h0 : pyStrip s ≠ [])
    (h1 : pyLower (pyStrip s) ≠ ("exit").data)
    (h2 : pyLower (pyStrip s) ≠ ("quit").data)
    (h3 : pyLower (pyStrip s) ≠ ("help").data)
    (halb : containsSub (("album").data) (pyStrip s) = true ∧
            containsSub (("open.spotify.com").data) (pyStrip s) = true) :
    (stepLine structured rsp resolve batch d s).2.2 =
      [TraceEv.printOut ((("Input: ").data) ++ pyStrip s),
       TraceEv.logInfo ((("Processing album: ").data) ++ pyStrip s),
       TraceEv.resolveCall [pyStrip s] d.settings.ytm_data
         d.settings.playlist_numbering d.settings.ignore_albums
         d.settings.album_type d.settings.playlist_retain_track_cover] ++
      (match resolve [pyStrip s] d.settings.ytm_data
          d.settings.playlist_numbering d.settings.ignore_albums
          d.settings.album_type d.settings.playlist_retain_track_cover with
       | Except.ok songs => [TraceEv.batchCall songs]
       | Except.error _ => []) := by
  simp only [stepLine]
  rw [if_neg h0, if_neg (not_or.mpr ⟨h1, h2⟩), if_neg h3, if_pos halb]
  rcases hres : resolve [pyStrip s] d.settings.ytm_data
      d.settings.playlist_numbering d.settings.ignore_albums
      d.settings.album_type d.settings.playlist_retain_track_cover with e | songs
  · simp [hres]
  · rcases hb : batch (if rsp then installWrapper d else d).download_song_to_file
        songs with e | u <;> simp [hres, hb]

theorem album_line_resolution_batch_witness :
    (pyStrip (("https://open.spotify.com/album/xyz").data) ≠ [] ∧
     pyLower (pyStrip (("https://open.spotify.com/album/xyz").data)) ≠
       ("exit").data ∧
     pyLower (pyStrip (("https://open.spotify.com/album/xyz").data)) ≠
       ("quit").data ∧
     pyLower (pyStrip (("https://open.spotify.com/album/xyz").data)) ≠
       ("help").data ∧
     containsSub (("album").data)
       (pyStrip (("https://open.spotify.com/album/xyz").data)) = true ∧
     containsSub (("open.spotify.com").data)
       (pyStrip (("https://open.spotify.com/album/xyz").data)) = true) ∧
    (stepLine false false sampleResolve sampleBatch sampleDownloader
        (("https://open.spotify.com/album/xyz").data)).2.2 =
      [TraceEv.printOut ((("Input: ").data) ++
         pyStrip (("https://open.spotify.com/album/xyz").data)),
       TraceEv.logInfo ((("Processing album: ").data) ++
         pyStrip (("https://open.spotify.com/album/xyz").data)),
       TraceEv.resolveCall
         [pyStrip (("https://open.spotify.com/album/xyz").data)]
         sampleDownloader.settings.ytm_data
         sampleDownloader.settings.playlist_numbering
         sampleDownloader.settings.ignore_albums
         sampleDownloader.settings.album_type
         sampleDownloader.settings.playlist_retain_track_cover] ++
      (match sampleResolve
          [pyStrip (("https://open.spotify.com/album/xyz").data)]
          sampleDownloader.settings.ytm_data
          sampleDownloader.settings.playlist_numbering
          sampleDownloader.settings.ignore_albums
          sampleDownloader.settings.album_type
          sampleDownloader.settings.playlist_retain_track_cover with
       | Except.ok songs => [TraceEv.batchCall songs]
       | Except.error _ => []) :=
  ⟨⟨by decide, by decide, by decide, by decide, by decide, by decide⟩,
   album_line_resolution_batch false false sampleResolve sampleBatch
     sampleDownloader (("https://open.spotify.com/album/xyz").data)
     (by decide) (by decide) (by decide) (by decide) ⟨by decide, by decide⟩⟩

/-- A downloader whose settings request the structured output template. -/
def sampleStructuredDownloader : Downloader Nat Unit :=
  { settings :=
      { sampleSettings with structured := some true, replace_spaces := some true }
    download_song_to_file := fun _ _ => () }

/-- C7: when the `structured` setting is true, the pre-loop override
installs the fixed three-level template as the `output` settings field, and
the teardown run with the remembered pre-session value puts that value back
into `output` whatever downloader state the loop left behind. -/
theorem structured_output_override {Song R : Type} (d : Downloader Song R)
    (h : d.settings.structured.getD false = true) :
    (applyOverrides d).settings.output = outputTemplate ∧
    ∀ e : Downloader Song R,
      (teardown (d.settings.structured.getD false)
        (d.settings.replace_spaces.getD false) d.settings.output
        e).settings.output = d.settings.output := by
  constructor
  · simp only [applyOverrides, h, if_true]
    split <;> rfl
  · intro e
    simp only [teardown, h, if_true]
    split <;> rfl

theorem structured_output_override_witness :
    sampleStructuredDownloader.settings.structured.getD false = true ∧
    ((applyOverrides sampleStructuredDownloader).settings.output =
        outputTemplate ∧
      (teardown (sampleStructuredDownloader.settings.structured.getD false)
        (sampleStructuredDownloader.settings.replace_spaces.getD false)
        sampleStructuredDownloader.settings.output
        sampleDownloader).settings.output =
        sampleStructuredDownloader.settings.output) :=
  ⟨rfl,
   (structured_output_override sampleStructuredDownloader rfl).1,
   (structured_output_override sampleStructuredDownloader rfl).2
     sampleDownloader⟩

/-- A downloader with space replacement on and the `space_replacer` function
stored in its settings, whose single-song entry point returns the file path
it was given. -/
def sampleRspDownloader : Downloader Nat (List Char) :=
  { settings :=
      { sampleSettings with replace_spaces := some true
                            space_replacer := some space_replacer }
    download_song_to_file := fun _ fp => fp }

/-- A batch collaborator over the path-returning downloader type. -/
def samplePathBatch : (Nat → List Char → List Char) → List Nat →
    Except Unit Unit :=
  fun _ _ => Except.ok ()

/-- C2: with space replacement enabled (settings hold the space replacer),
every call to the installed single-song entry point during a batch receives
the destination path rewritten by `space_replacer`, and once the batch
returns successfully the iteration puts the original entry point back on the
downloader. -/
theorem wrapper_rewrites_and_restores {Song E R : Type} (structured : Bool)
    (resolve : List (List Char) → Bool → Bool → List (List Char) → List Char →
      Bool → Except E (List Song))
    (batch : (Song → List Char → R) → List Song → Except E Unit)
    (d : Downloader Song R) (s : List Char) (songs : List Song)
    (hsr : d.settings.space_replacer = some space_replacer)
    (h0 : pyStrip s ≠ [])
    (h1 : pyLower (pyStrip s) ≠ ("exit").data)
    (h2 : pyLower (pyStrip s) ≠ ("quit").data)
    (h3 : pyLower (pyStrip s) ≠ ("help").data)
    (halb : containsSub (("album").data) (pyStrip s) = true ∧
            containsSub (("open.spotify.com").data) (pyStrip s) = true)
    (hres : resolve [pyStrip s] d.settings.ytm_data
        d.settings.playlist_numbering d.settings.ignore_albums
        d.settings.album_type d.settings.playlist_retain_track_cover =
      Except.ok songs)
    (hb : batch (installWrapper d).download_song_to_file songs =
      Except.ok ()) :
    (∀ (song : Song) (fp : List Char),
      (installWrapper d).download_song_to_file song fp =
        d.download_song_to_file song (space_replacer fp)) ∧
    (stepLine structured true resolve batch d s).2.1.download_song_to_file =
      d.download_song_to_file := by
  constructor
  · intro song fp
    simp only [installWrapper, download_song_to_file_wrapper, hsr]
    by_cases hfp : fp = []
    · subst hfp
      simp [space_replacer]
    · simp [hfp]
  · simp only [stepLine]
    rw [if_neg h0, if_neg (not_or.mpr ⟨h1, h2⟩), if_neg h3, if_pos halb]
    simp [hres, hb]

theorem wrapper_rewrites_and_restores_witness :
    (sampleRspDownloader.settings.space_replacer = some space_replacer ∧
     pyStrip (("https://open.spotify.com/album/xyz").data) ≠ [] ∧
     sampleResolve [pyStrip (("https://open.spotify.com/album/xyz").data)]
        sampleRspDownloader.settings.ytm_data
        sampleRspDownloader.settings.playlist_numbering
        sampleRspDownloader.settings.ignore_albums
        sampleRspDownloader.settings.album_type
        sampleRspDownloader.settings.playlist_retain_track_cover =
       Except.ok [0] ∧
     samplePathBatch (installWrapper sampleRspDownloader).download_song_to_file
        [0] = Except.ok ()) ∧
    ((∀ (song : Nat) (fp : List Char),
       (installWrapper sampleRspDownloader).download_song_to_file song fp =
         sampleRspDownloader.download_song_to_file song (space_replacer fp)) ∧
     (stepLine false true sampleResolve samplePathBatch sampleRspDownloader
        (("https://open.spotify.com/album/xyz").data)).2.1.download_song_to_file =
       sampleRspDownloader.download_song_to_file) ∧
    (installWrapper sampleRspDownloader).download_song_to_file 0
        (("Artist Name/My Song.mp3").data) =
      ("Artist Name/My-Song.mp3").data :=
  have hmain := wrapper_rewrites_and_restores false sampleResolve
    samplePathBatch sampleRspDownloader
    (("https://open.spotify.com/album/xyz").data) [0] rfl (by decide)
    (by decide) (by decide) (by decide) ⟨by decide, by decide⟩ rfl rfl
  ⟨⟨rfl, by decide, rfl, rfl⟩, hmain,
   by rw [hmain.1 0 (("Artist Name/My Song.mp3").data)]; decide⟩

/-- The loop body never touches the settings mapping: only the
`download_song_to_file` attribute is ever replaced or restored. -/
theorem stepLine_settings {Song E R : Type} (structured rsp : Bool)
    (resolve : List (List Char) → Bool → Bool → List (List Char) → List Char →
      Bool → Except E (List Song))
    (batch : (Song → List Char → R) → List Song → Except E Unit)
    (d : Downloader Song R) (s : List Char) :
    ((stepLine structured rsp resolve batch d s).2.1).settings = d.settings := by
  simp only [stepLine]
  split
  · rfl
  · split
    · rfl
    · split
      · rfl
      · split
        · split
          · rfl
          · split
            · split <;> rfl
            · split <;> rfl
        · rfl

/-- The whole loop never touches the settings mapping, whatever outcome it
reaches. -/
theorem sessionLoop_settings {Song E R : Type} (structured rsp : Bool)
    (resolve : List (List Char) → Bool → Bool → List (List Char) → List Char →
      Bool → Except E (List Song))
    (batch : (Song → List Char → R) → List Song → Except E Unit) :
    ∀ (events : List InputEvent) (d : Downloader Song R),
      ((sessionLoop structured rsp resolve batch events d).2.1).settings =
        d.settings
  | [], _ => rfl
  | InputEvent.interrupt :: _, _ => rfl
  | InputEvent.line s :: rest, d => by
    have hs := stepLine_settings structured rsp resolve batch d s
    rcases hstep : stepLine structured rsp resolve batch d s with ⟨c, d1, tr⟩
    rw [hstep] at hs
    cases c with
    | cont =>
      have ih := sessionLoop_settings structured rsp resolve batch rest d1
      rcases hr : sessionLoop structured rsp resolve batch rest d1 with ⟨o, d2, tr2⟩
      rw [hr] at ih
      simp only [sessionLoop, hstep, hr]
      rw [ih, hs]
    | brk =>
      simp only [sessionLoop, hstep]
      exact hs
    | err e =>
      simp only [sessionLoop, hstep]
      exact hs

/-- Whatever downloader state `e` the loop ends in, as long as its settings
are still those produced by the overrides, the teardown leaves `output` at
its pre-session value and the `space_replacer` key absent. -/
theorem teardown_restores_settings {Song R : Type} (d e : Downloader Song R)
    (hsr : d.settings.space_replacer = none)
    (he : e.settings = (applyOverrides d).settings) :
    (teardown (d.settings.structured.getD false)
      (d.settings.replace_spaces.getD false) d.settings.output
      e).settings.output = d.settings.output ∧
    (teardown (d.settings.structured.getD false)
      (d.settings.replace_spaces.getD false) d.settings.output
      e).settings.space_replacer = none := by
  by_cases hst : d.settings.structured.getD false = true <;>
    by_cases hrp : d.settings.replace_spaces.getD false = true <;>
      simp [applyOverrides, hst, hrp] at he <;>
      simp_all [teardown, hsr]

/-- C1: for any session that exits the loop (exit/quit, interrupt, or an
uncaught collaborator failure — the teardown runs on every such path),
starting from settings without a `space_replacer` key, the final settings
have `output` equal to its pre-session value and no `space_replacer` key. -/
theorem pconsole_settings_restored {Song E R : Type} (d : Downloader Song R)
    (resolve : List (List Char) → Bool → Bool → List (List Char) → List Char →
      Bool → Except E (List Song))
    (batch : (Song → List Char → R) → List Song → Except E Unit)
    (events : List InputEvent)
    (hsr : d.settings.space_replacer = none)
    (hnd : (pconsole d resolve batch events).1 ≠ LoopOutcome.diverged) :
    ((pconsole d resolve batch events).2.1).settings.output =
      d.settings.output ∧
    ((pconsole d resolve batch events).2.1).settings.space_replacer = none := by
  have hloop := sessionLoop_settings (d.settings.structured.getD false)
    (d.settings.replace_spaces.getD false) resolve batch events
    (applyOverrides d)
  rcases hr : sessionLoop (d.settings.structured.getD false)
      (d.settings.replace_spaces.getD false) resolve batch events
      (applyOverrides d) with ⟨o, d3, tr⟩
  rw [hr] at hloop
  have hrestore := teardown_restores_settings d d3 hsr hloop
  cases o with
  | diverged =>
    exact absurd (by simp only [pconsole, hr]) hnd
  | exited =>
    simp only [pconsole, hr]
    exact hrestore
  | interrupted =>
    simp only [pconsole, hr]
    exact hrestore
  | raised e =>
    simp only [pconsole, hr]
    exact hrestore

theorem pconsole_settings_restored_witness :
    (sampleStructuredDownloader.settings.space_replacer = none ∧
     (pconsole sampleStructuredDownloader sampleResolve sampleBatch
        [InputEvent.line (("exit").data)]).1 ≠ LoopOutcome.diverged) ∧
    ((pconsole sampleStructuredDownloader sampleResolve sampleBatch
        [InputEvent.line (("exit").data)]).2.1.settings.output =
       sampleStructuredDownloader.settings.output ∧
     (pconsole sampleStructuredDownloader sampleResolve sampleBatch
        [InputEvent.line (("exit").data)]).2.1.settings.space_replacer =
       none) :=
  ⟨⟨rfl, by decide⟩,
   pconsole_settings_restored sampleStructuredDownloader sampleResolve
     sampleBatch [InputEvent.line (("exit").data)] rfl (by decide)⟩

/-- C4 (failing-input evidence): with no input available at all — the stream
signals end-of-input immediately — the loop never terminates: `readline`
returns the empty string instead of raising `EOFError`, the empty line is
treated as a blank line and the loop re-prompts forever, contradicting the
claimed (and docstring-promised) exit on end-of-input. -/
theorem pconsole_eof_diverges {Song E R : Type} (d : Downloader Song R)
    (resolve : List (List Char) → Bool → Bool → List (List Char) → List Char →
      Bool → Except E (List Song))
    (batch : (Song → List Char → R) → List Song → Except E Unit) :
    (pconsole d resolve batch []).1 = LoopOutcome.diverged := rfl
